import Mathlib

set_option autoImplicit false
set_option maxRecDepth 8000

/-! Shallow embedding of the restore-point catalog and lifecycle manager of
`web-interface/app.py` (Nutanix OVA Backup/Restore tool).

The filesystem rooted at `RESTORE_POINTS_DIR` is modelled as a flat
association list from paths (lists of name components, relative to the
catalog root) to objects: a regular file carries a byte size and its text
content as a list of lines (one element per line returned by `readlines`,
line terminators stripped — counting and per-line parsing are unaffected),
a directory carries nothing.  `os.path.join(RESTORE_POINTS_DIR, name)`
followed by an access is modelled as a lookup of `name.splitOn "/"`;
lexical resolution of `..` segments (what the kernel does when the
intermediate directories exist) is modelled separately by `normSegments`.
`round(x, k)` on Python floats is modelled as exact rational rounding
(`pyRound`); the witnesses below stay away from representation ties.
`os.path.getsize` on a directory returns that directory's stat size, which
the model has no notion of; it is rendered as 0 (no theorem depends on it).
-/

/-- Python `str.startswith`, as list containment on the characters. -/
def pyStarts (s pre : String) : Bool :=
  pre.data.isPrefixOf s.data

/-- Python `str.endswith`. -/
def pyEndsWith (s suf : String) : Bool :=
  suf.data.isSuffixOf s.data

/-- Split a character list on a delimiter (Python `str.split(d)`): always at
least one piece, adjacent delimiters produce empty pieces. -/
def splitChar (d : Char) : List Char → List (List Char)
  | [] => [[]]
  | c :: rest =>
    let r := splitChar d rest
    if c = d then [] :: r
    else (c :: r.headD []) :: r.tail

/-- Python `str.split(d)` for a one-character delimiter. -/
def pySplit (d : Char) (s : String) : List String :=
  (splitChar d s.data).map String.mk

/-- Python `str.strip()`: whitespace removed from both ends. -/
def pyStrip (s : String) : String :=
  String.mk (((s.data.dropWhile Char.isWhitespace).reverse.dropWhile Char.isWhitespace).reverse)

/-- Left-to-right single-pass replacement of a non-empty pattern; the fuel
argument (instantiated with the text length) only serves structural
termination and never runs out on a non-empty pattern. -/
def replFuel (pat rep : List Char) : Nat → List Char → List Char
  | _, [] => []
  | 0, cs => cs
  | Nat.succ fuel, c :: cs =>
    if pat.isPrefixOf (c :: cs) then rep ++ replFuel pat rep fuel ((c :: cs).drop pat.length)
    else c :: replFuel pat rep fuel cs

/-- Python `str.replace` (for the non-empty patterns `app.py` uses). -/
def pyReplace (s pat rep : String) : String :=
  String.mk (replFuel pat.data rep.data s.data.length s.data)

/-- Required naming prefix of a restore point (`'vm-export-'` in `app.py`). -/
def RP_PREF : String := "vm-export-"

/-- Manifest file name inside a restore point (`vm_export_tasks.csv`). -/
def TASKS_CSV : String := "vm_export_tasks.csv"

/-- Artifact file extension (`.ova`). -/
def OVA_EXT : String := ".ova"

/-- A filesystem object: a regular file (byte size plus text lines) or a
directory. -/
inductive FSObj where
  | file (size : Nat) (lines : List String)
  | dir
deriving DecidableEq

/-- The catalog subtree: a flat list of (path, object) entries, paths being
component lists relative to `RESTORE_POINTS_DIR`. -/
structure FS where
  entries : List (List String × FSObj)
deriving DecidableEq

def FSObj.isDirB : FSObj → Bool
  | .dir => true
  | .file _ _ => false

def FSObj.isFileB : FSObj → Bool
  | .dir => false
  | .file _ _ => true

/-- Resolve a path to the object stored there (first matching entry). -/
def FS.lookup (fs : FS) (p : List String) : Option FSObj :=
  (fs.entries.find? (fun e => e.1 == p)).map Prod.snd

/-- Model of `os.path.exists`. -/
def FS.pathExists (fs : FS) (p : List String) : Bool :=
  (fs.lookup p).isSome

/-- Model of `os.path.isdir`. -/
def FS.isDir (fs : FS) (p : List String) : Bool :=
  match fs.lookup p with
  | some .dir => true
  | _ => false

/-- Model of `os.path.getsize` (0 when absent or a directory; the code
converts a raised exception into 0 as well). -/
def sizeAt (fs : FS) (p : List String) : Nat :=
  match fs.lookup p with
  | some (.file sz _) => sz
  | _ => 0

/-- `q` lies strictly below `p` in the tree. -/
def strictUnder (p q : List String) : Bool :=
  p.isPrefixOf q && p != q

def entrySize : List String × FSObj → Nat
  | (_, FSObj.file sz _) => sz
  | (_, FSObj.dir) => 0

/-- `file.endswith('.ova')` on a basename. -/
def isOvaName (s : String) : Bool :=
  pyEndsWith s OVA_EXT

/-- Sum over `os.walk` of the sizes of every file strictly below `p`
(the deletion code paths: no extension filter). -/
def allSizeUnder (fs : FS) (p : List String) : Nat :=
  ((fs.entries.filter (fun e => strictUnder p e.1 && e.2.isFileB)).map entrySize).sum

/-- Sum over `os.walk` of the sizes of the `.ova` files strictly below `p`
(the `get_restore_points` size aggregation). -/
def ovaSizeUnder (fs : FS) (p : List String) : Nat :=
  ((fs.entries.filter
      (fun e => strictUnder p e.1 && e.2.isFileB && isOvaName (e.1.getLastD ""))).map
    entrySize).sum

/-- `len(f.readlines()[1:])` on the manifest below `p`: every line after the
header counts; an absent manifest (or a failing `open`, e.g. the path is a
directory) yields 0 via the swallowed exception. -/
def manifestLineCount (fs : FS) (p : List String) : Nat :=
  match fs.lookup (p ++ [TASKS_CSV]) with
  | some (.file _ lines) => (lines.drop 1).length
  | _ => 0

/-- Remove the entry at `p` and everything below it. -/
def FS.removeAll (fs : FS) (p : List String) : FS :=
  ⟨fs.entries.filter (fun e => !(p.isPrefixOf e.1))⟩

/-- Model of `shutil.rmtree`: succeeds on a directory, raises
`NotADirectoryError` otherwise (leaving the tree untouched). -/
def removeTree (fs : FS) (p : List String) : Except String FS :=
  if fs.isDir p then .ok (fs.removeAll p) else .error "Not a directory"

/-- The error outcomes the endpoints can report. -/
inductive ApiError where
  | invalidName
  | notFound
  | invalidTarget
  | invalidRequest (msg : String)
  | ioError (msg : String)
deriving DecidableEq

/-- The JSON message `app.py` attaches to each error response. -/
def errMessage : ApiError → String
  | .invalidName => "Invalid restore point name format"
  | .notFound => "Restore point not found"
  | .invalidTarget => "Invalid restore point"
  | .invalidRequest m => m
  | .ioError m => m

/-- Path components of a (URL-decoded) restore-point name. -/
def rpSegs (name : String) : List String :=
  pySplit '/' name

/-- One parsed row of `api_restore_point_contents`. -/
structure VMData where
  vm_name : String
  vm_uuid : String
  project : String
  task_uuid : String
  ova_name : String
  status : String
  export_time : String
  ova_exists : Bool
  ova_size_bytes : Nat
deriving DecidableEq

/-- The loop body of `api_restore_point_contents`: strip the line, split on
`','`, keep it only when at least 3 fields result, index fields positionally
with `''` defaults for the optional tail fields, then enrich with the
`<vm_uuid>.ova` existence/size check. -/
def parseManifestLine (fs : FS) (p : List String) (line : String) : Option VMData :=
  let parts := pySplit ',' (pyStrip line)
  if 3 ≤ parts.length then
    let uuid := parts.getD 1 ""
    let ovaPath := p ++ [uuid ++ OVA_EXT]
    some { vm_name := parts.getD 0 ""
           vm_uuid := uuid
           project := parts.getD 2 ""
           task_uuid := parts.getD 3 ""
           ova_name := parts.getD 4 ""
           status := "Completed"
           export_time := ""
           ova_exists := fs.pathExists ovaPath
           ova_size_bytes := sizeAt fs ovaPath }
  else none

/-- Success payload of `api_restore_point_contents`. -/
structure ContentsOk where
  restore_point : String
  vms : List VMData
  vm_count : Nat
deriving DecidableEq

/-- `api_restore_point_contents` (after URL decoding): prefix validation,
existence check (`os.path.exists` only — no directory check), then manifest
parsing; an absent manifest yields an empty list, a manifest path that is a
directory makes `open` raise, which the handler reports as a 500 error. -/
def api_restore_point_contents (fs : FS) (name : String) : Except ApiError ContentsOk :=
  if !(pyStarts name RP_PREF) then .error .invalidName
  else
    let p := rpSegs name
    if !(fs.pathExists p) then .error .notFound
    else
      match fs.lookup (p ++ [TASKS_CSV]) with
      | some (.file _ lines) =>
          let vms := if 1 < lines.length
            then (lines.drop 1).filterMap (parseManifestLine fs p)
            else []
          .ok ⟨name, vms, vms.length⟩
      | some .dir => .error (.ioError "Failed to read restore point contents")
      | none => .ok ⟨name, [], 0⟩

/-- Success payload of `api_delete_restore_point`. -/
structure DeleteOk where
  deleted_vm_count : Nat
  deleted_size_bytes : Nat
deriving DecidableEq

/-- `api_delete_restore_point` (after URL decoding): prefix validation,
existence check, directory check, pre-deletion statistics (manifest line
count and the sum of ALL file sizes below the point — no `.ova` filter),
then `shutil.rmtree`.  Returns the outcome and the resulting filesystem. -/
def api_delete_restore_point (fs : FS) (name : String) : Except ApiError DeleteOk × FS :=
  if !(pyStarts name RP_PREF) then (.error .invalidName, fs)
  else
    let p := rpSegs name
    if !(fs.pathExists p) then (.error .notFound, fs)
    else if !(fs.isDir p) then (.error .invalidTarget, fs)
    else
      (.ok ⟨manifestLineCount fs p, allSizeUnder fs p⟩, fs.removeAll p)

/-- One element of `get_restore_points`' result. -/
structure RPSummary where
  name : String
  timestamp : String
  vm_count : Nat
  size_bytes : Nat
  size_mb : ℚ
deriving DecidableEq

/-- Exact-rational model of Python `round(q, d)` (ties are avoided by every
concrete input below). -/
def pyRound (d : Nat) (q : ℚ) : ℚ :=
  (round (q * 10 ^ d) : ℤ) / 10 ^ d

/-- The per-item summary built inside the `get_restore_points` loop.  Note
`vm_count` counts every manifest line after the header, `size_bytes` sums
only `.ova` files, and `size_mb` is `round(total_size / 1024 / 1024, 1)`. -/
def summarizeRP (fs : FS) (item : String) : RPSummary :=
  { name := item
    timestamp := pyReplace item RP_PREF ""
    vm_count := manifestLineCount fs [item]
    size_bytes := ovaSizeUnder fs [item]
    size_mb := pyRound 1 ((ovaSizeUnder fs [item] : ℚ) / 1024 / 1024) }

/-- Stable descending insertion, modelling `sorted(names, reverse=True)`. -/
def insertDesc (a : String) : List String → List String
  | [] => [a]
  | b :: bs => if a < b then b :: insertDesc a bs else a :: b :: bs

def sortDesc : List String → List String
  | [] => []
  | a :: as => insertDesc a (sortDesc as)

/-- The names `os.listdir(RESTORE_POINTS_DIR)` yields: the root's immediate
children. -/
def rootNames (fs : FS) : List String :=
  fs.entries.filterMap (fun e =>
    match e.1 with
    | [n] => some n
    | _ => none)

/-- `get_restore_points`: enumerate the root, keep prefixed directories in
descending name order, and summarise each. -/
def get_restore_points (fs : FS) : List RPSummary :=
  ((sortDesc (rootNames fs)).filter
      (fun n => pyStarts n RP_PREF && fs.isDir [n])).map (summarizeRP fs)

/-- Per-item outcome recorded by the bulk-delete loop. -/
inductive ItemResult where
  | ok (name : String) (deleted_vm_count : Nat) (deleted_size_bytes : Nat)
  | err (name : String) (error : String)
deriving DecidableEq

def itemName : ItemResult → String
  | .ok n _ _ => n
  | .err n _ => n

def itemOk : ItemResult → Bool
  | .ok _ _ _ => true
  | .err _ _ => false

def itemVm : ItemResult → Nat
  | .ok _ v _ => v
  | .err _ _ => 0

def itemSize : ItemResult → Nat
  | .ok _ _ s => s
  | .err _ _ => 0

/-- The body of the bulk-delete loop for one name: prefix validation,
existence check (NO directory check, unlike the single deletion), statistics,
then `shutil.rmtree` with the raised exception captured as a per-item
failure. -/
def bulkItem (fs : FS) (name : String) : ItemResult × FS :=
  if !(pyStarts name RP_PREF) then (.err name "Invalid restore point name format", fs)
  else
    let p := rpSegs name
    if !(fs.pathExists p) then (.err name "Restore point not found", fs)
    else
      match removeTree fs p with
      | .ok fs2 => (.ok name (manifestLineCount fs p) (allSizeUnder fs p), fs2)
      | .error e => (.err name e, fs)

/-- The bulk-delete loop: results in input order, running totals added only
on success, each item acting on the filesystem the previous ones left. -/
def bulkLoop (fs : FS) : List String → List ItemResult × Nat × Nat × FS
  | [] => ([], 0, 0, fs)
  | n :: ns =>
    let step := bulkItem fs n
    let rest := bulkLoop step.2 ns
    (step.1 :: rest.1,
     (if itemOk step.1 then itemSize step.1 else 0) + rest.2.1,
     (if itemOk step.1 then itemVm step.1 else 0) + rest.2.2.1,
     rest.2.2.2)

/-- The request body of the bulk endpoint: missing/keyless JSON, a
`restore_points` value that is not a list, or a list of names. -/
inductive BulkReq where
  | missing
  | nonList
  | names (l : List String)

/-- Summary block of the bulk response. -/
structure BulkSummary where
  total_requested : Nat
  successful_deletes : Nat
  failed_deletes : Nat
  total_deleted_size_bytes : Nat
  total_deleted_vms : Nat
deriving DecidableEq

/-- Success payload of the bulk endpoint. -/
structure BulkOk where
  results : List ItemResult
  summary : BulkSummary
deriving DecidableEq

/-- `api_bulk_delete_restore_points`: whole-call validation of the request
shape, then the per-item loop and the summary rollup. -/
def api_bulk_delete_restore_points (fs : FS) : BulkReq → Except ApiError BulkOk × FS
  | .missing => (.error (.invalidRequest "No restore points specified"), fs)
  | .nonList => (.error (.invalidRequest "Invalid restore points format"), fs)
  | .names ns =>
    let r := bulkLoop fs ns
    let succ := (r.1.filter itemOk).length
    (.ok { results := r.1
           summary :=
             { total_requested := ns.length
               successful_deletes := succ
               failed_deletes := r.1.length - succ
               total_deleted_size_bytes := r.2.1
               total_deleted_vms := r.2.2.1 } },
     r.2.2.2)

/-- Lexical resolution of a component sequence: empty and `.` components
vanish, `..` pops the accumulated path (staying at the root when empty) —
what the kernel computes when the intermediate directories exist. -/
def normAux (acc : List String) : List String → List String
  | [] => acc
  | s :: rest =>
    if s = "" ∨ s = "." then normAux acc rest
    else if s = ".." then normAux acc.dropLast rest
    else normAux (acc ++ [s]) rest

def normSegments (segs : List String) : List String :=
  normAux [] segs

/-- The path `os.path.join(root, name)` resolves to. -/
def resolvedPath (root : List String) (name : String) : List String :=
  normSegments (root ++ rpSegs name)

/-- Well-formed tree: every entry lying strictly below another entry has a
directory at that ancestor entry. -/
def FS.WF (fs : FS) : Prop :=
  ∀ e ∈ fs.entries, ∀ e2 ∈ fs.entries,
    e.1 ≠ e2.1 → e.1.isPrefixOf e2.1 = true → e.2.isDirB = true

/-- Number of well-formed manifest rows in the spec's sense: lines after the
header whose stripped text splits into at least 3 comma-separated fields. -/
def wellFormedCount (lines : List String) : Nat :=
  ((lines.drop 1).filter (fun l => 3 ≤ (pySplit ',' (pyStrip l)).length)).length

/-- A ManifestEntry built from the already-split fields the way the spec
words it: fixed positional order (VM name, VM UUID, project, then optional
task UUID and artifact name defaulting to the empty string), enriched with
the `<vmUuid>.ova` existence and size checks. -/
def specEntry (fs : FS) (p : List String) (parts : List String) : VMData :=
  { vm_name := parts.getD 0 ""
    vm_uuid := parts.getD 1 ""
    project := parts.getD 2 ""
    task_uuid := parts.getD 3 ""
    ova_name := parts.getD 4 ""
    status := "Completed"
    export_time := ""
    ova_exists := fs.pathExists (p ++ [parts.getD 1 "" ++ OVA_EXT])
    ova_size_bytes := sizeAt fs (p ++ [parts.getD 1 "" ++ OVA_EXT]) }

/-- The single-deletion endpoint reshaped as a bulk per-item outcome,
carrying over the JSON error message, for comparing the two procedures. -/
def singleAsItem (fs : FS) (name : String) : ItemResult × FS :=
  match api_delete_restore_point fs name with
  | (.ok r, fs2) => (.ok name r.deleted_vm_count r.deleted_size_bytes, fs2)
  | (.error e, fs2) => (.err name (errMessage e), fs2)

/-- Fixture: a restore point holding one artifact and one non-artifact
file. -/
def fsC2 : FS :=
  ⟨[(["vm-export-a"], .dir),
    (["vm-export-a", "disk.ova"], .file 100 []),
    (["vm-export-a", "notes.txt"], .file 50 [])]⟩

/-- Fixture: a restore point holding only artifact files. -/
def fsC2w : FS :=
  ⟨[(["vm-export-b"], .dir),
    (["vm-export-b", "u1.ova"], .file 100 [])]⟩

/-- Fixture: a restore point whose manifest has a header, one well-formed
row and one malformed row. -/
def fsC3 : FS :=
  ⟨[(["vm-export-c"], .dir),
    (["vm-export-c", "vm_export_tasks.csv"],
      .file 64 ["VM_NAME,VM_UUID,PROJECT_NAME,TASK_UUID,OVA_NAME",
                "vm1,uuid1,proj1,task1,uuid1.ova",
                "malformed"])]⟩

/-- Fixture: a restore point with a single artifact of 1321205 bytes, a
size whose one-decimal and two-decimal MB roundings differ. -/
def fsC5 : FS :=
  ⟨[(["vm-export-d"], .dir),
    (["vm-export-d", "u.ova"], .file 1321205 [])]⟩

/-- Fixture: a manifest with a header, two well-formed rows and one
malformed row. -/
def fsC7 : FS :=
  ⟨[(["vm-export-e"], .dir),
    (["vm-export-e", "vm_export_tasks.csv"],
      .file 90 ["VM_NAME,VM_UUID,PROJECT_NAME,TASK_UUID,OVA_NAME",
                "vm1,u1,p1,t1,u1.ova",
                "short,x",
                "vm2,u2,p2"]),
    (["vm-export-e", "u1.ova"], .file 42 [])]⟩

/-- Fixture: a prefixed name whose path exists but is a regular file. -/
def fsC9 : FS :=
  ⟨[(["vm-export-f"], .file 5 [])]⟩

/-- Fixture: a prefixed name whose path is a regular file (contents
endpoint). -/
def fsC10 : FS :=
  ⟨[(["vm-export-g"], .file 7 ["only line"])]⟩

/-! Shared helper lemmas. -/

theorem lookup_mem {fs : FS} {p : List String} {o : FSObj}
    (h : fs.lookup p = some o) : (p, o) ∈ fs.entries := by
  unfold FS.lookup at h
  cases hf : fs.entries.find? (fun e => e.1 == p) with
  | none => rw [hf] at h; simp at h
  | some ent =>
    rw [hf] at h
    simp only [Option.map_some'] at h
    have hmem := List.mem_of_find?_eq_some hf
    have hpred := List.find?_some hf
    have hfst : ent.1 = p := by simpa using hpred
    have hsnd : ent.2 = o := by simpa using h
    have hent : ent = (p, o) := Prod.ext hfst hsnd
    rwa [hent] at hmem

theorem pathExists_of_lookup {fs : FS} {p : List String} {o : FSObj}
    (h : fs.lookup p = some o) : fs.pathExists p = true := by
  unfold FS.pathExists
  rw [h]
  rfl

theorem isDir_pathExists {fs : FS} {p : List String}
    (h : fs.isDir p = true) : fs.pathExists p = true := by
  unfold FS.isDir at h
  unfold FS.pathExists
  cases hl : fs.lookup p with
  | none => rw [hl] at h; simp at h
  | some o => rfl

/-! Claim C1: containment of accepted names under the catalog root. -/

/-- C1 counterexample: the name made of the required `vm-export-` text
followed by slash, dot-dot, slash, dot-dot, slash, `etc` passes the
naming-prefix validation, yet the path it resolves to under the catalog
root `srv/restore-points` is `srv/etc`, outside the root. -/
theorem claim1_counterexample :
    pyStarts "vm-export-/../../etc" RP_PREF = true ∧
    resolvedPath ["srv", "restore-points"] "vm-export-/../../etc" = ["srv", "etc"] ∧
    (["srv", "restore-points"].isPrefixOf
      (resolvedPath ["srv", "restore-points"] "vm-export-/../../etc")) = false := by
  refine ⟨by decide, by decide, by decide⟩

theorem normAux_append (l1 l2 : List String) : ∀ acc,
    normAux acc (l1 ++ l2) = normAux (normAux acc l1) l2 := by
  induction l1 with
  | nil => intro acc; rfl
  | cons s rest ih =>
    intro acc
    by_cases h1 : s = "" ∨ s = "."
    · simp only [List.cons_append, normAux, if_pos h1]
      exact ih acc
    · by_cases h2 : s = ".."
      · simp only [List.cons_append, normAux, if_neg h1, if_pos h2]
        exact ih _
      · simp only [List.cons_append, normAux, if_neg h1, if_neg h2]
        exact ih _

/-- C1 amended: the prefix validation alone does not confine accepted names
to the catalog root (see the counterexample); containment does hold for
every accepted name free of path separators — such a name resolves to the
child of the (already-normal) root bearing that name. -/
theorem claim1_amended (root : List String) (name : String)
    (hroot : normSegments root = root)
    (hone : rpSegs name = [name])
    (hv : pyStarts name RP_PREF = true) :
    resolvedPath root name = root ++ [name] ∧
    root.isPrefixOf (resolvedPath root name) = true := by
  have hne : name ≠ "" := by
    rintro rfl; exact absurd hv (by decide)
  have hnd : name ≠ "." := by
    rintro rfl; exact absurd hv (by decide)
  have hndd : name ≠ ".." := by
    rintro rfl; exact absurd hv (by decide)
  have hor : ¬(name = "" ∨ name = ".") := not_or.mpr ⟨hne, hnd⟩
  have hres : resolvedPath root name = root ++ [name] := by
    unfold resolvedPath normSegments
    rw [hone, normAux_append]
    have hr : normAux [] root = root := hroot
    rw [hr]
    show normAux root [name] = root ++ [name]
    unfold normAux
    rw [if_neg hor, if_neg hndd]
    rfl
  exact ⟨hres, by
    rw [hres]
    exact List.isPrefixOf_iff_prefix.mpr (List.prefix_append _ _)⟩

/-- C1 amended witness at a separator-free accepted name. -/
theorem claim1_witness :
    resolvedPath ["srv", "restore-points"] "vm-export-20240101" =
      ["srv", "restore-points", "vm-export-20240101"] ∧
    (["srv", "restore-points"].isPrefixOf
      (resolvedPath ["srv", "restore-points"] "vm-export-20240101")) = true := by
  have h := claim1_amended ["srv", "restore-points"] "vm-export-20240101"
    (by decide) (by decide) (by decide)
  exact ⟨h.1, h.2⟩

/-! Claim C4: bulk-delete whole-call validation. -/

/-- C4 counterexample: an empty input sequence does NOT produce a
whole-call validation error — the endpoint answers success with an empty
per-item list and an all-zero summary. -/
theorem claim4_counterexample :
    api_bulk_delete_restore_points ⟨[]⟩ (.names []) =
      (.ok ⟨[], ⟨0, 0, 0, 0, 0⟩⟩, ⟨[]⟩) := by
  rfl

/-- C4 amended: only non-sequence input (or a missing body/key) yields the
single whole-call validation error; an empty sequence yields a success
result with no per-item results and an all-zero summary, the filesystem
untouched. -/
theorem claim4_amended (fs : FS) :
    (api_bulk_delete_restore_points fs .missing).1 =
      .error (.invalidRequest "No restore points specified") ∧
    (api_bulk_delete_restore_points fs .nonList).1 =
      .error (.invalidRequest "Invalid restore points format") ∧
    api_bulk_delete_restore_points fs (.names []) = (.ok ⟨[], ⟨0, 0, 0, 0, 0⟩⟩, fs) := by
  exact ⟨rfl, rfl, rfl⟩

/-! Claim C6: invalid names are rejected with no filesystem mutation. -/

/-- C6: a name lacking the `vm-export-` prefix makes the contents endpoint
and the delete endpoint answer the invalid-name error, the delete endpoint
returning the filesystem unchanged. -/
theorem claim6_invalid_name_no_mutation (fs : FS) (name : String)
    (h : pyStarts name RP_PREF = false) :
    api_restore_point_contents fs name = .error .invalidName ∧
    api_delete_restore_point fs name = (.error .invalidName, fs) := by
  constructor
  · unfold api_restore_point_contents
    rw [h]
    rfl
  · unfold api_delete_restore_point
    rw [h]
    rfl

/-- C6 witness at the unprefixed name `bogus`. -/
theorem claim6_witness :
    api_restore_point_contents ⟨[]⟩ "bogus" = .error .invalidName ∧
    api_delete_restore_point ⟨[]⟩ "bogus" = (.error .invalidName, ⟨[]⟩) := by
  exact claim6_invalid_name_no_mutation ⟨[]⟩ "bogus" (by decide)

/-! Claim C10: contents endpoint on an existing non-directory. -/

/-- C10: an accepted name whose path exists as a regular file is answered
with success, an empty VM list and `vm_count` 0 — the handler checks only
`os.path.exists`, never that the path is a directory, and a file has no
manifest below it. -/
theorem claim10_contents_on_file (fs : FS) (name : String) (sz : Nat)
    (lines : List String) (hwf : fs.WF)
    (hv : pyStarts name RP_PREF = true)
    (hf : fs.lookup (rpSegs name) = some (.file sz lines)) :
    api_restore_point_contents fs name = .ok ⟨name, [], 0⟩ := by
  have hpe : fs.pathExists (rpSegs name) = true := pathExists_of_lookup hf
  have htasks : fs.lookup (rpSegs name ++ [TASKS_CSV]) = none := by
    cases h2 : fs.lookup (rpSegs name ++ [TASKS_CSV]) with
    | none => rfl
    | some o =>
      exfalso
      have hm1 := lookup_mem hf
      have hm2 := lookup_mem h2
      have hne : rpSegs name ≠ rpSegs name ++ [TASKS_CSV] := by simp
      have hpr : (rpSegs name).isPrefixOf (rpSegs name ++ [TASKS_CSV]) = true :=
        List.isPrefixOf_iff_prefix.mpr (List.prefix_append _ _)
      have := hwf _ hm1 _ hm2 hne hpr
      simp [FSObj.isDirB] at this
  simp [api_restore_point_contents, hv, hpe, htasks]

/-- C10 witness: a regular file named `vm-export-g` in the catalog root. -/
theorem claim10_witness :
    api_restore_point_contents fsC10 "vm-export-g" = .ok ⟨"vm-export-g", [], 0⟩ := by
  exact claim10_contents_on_file fsC10 "vm-export-g" 7 ["only line"]
    (by unfold FS.WF fsC10; decide) (by decide) (by decide)

/-! Claim C2: pre-deletion size statistic vs the Catalog Reader's. -/

/-- C2 counterexample: deleting a restore point holding a 100-byte artifact
and a 50-byte non-artifact file reports 150 deleted bytes, while the Catalog
Reader's artifact-only sum for the same directory state is 100. -/
theorem claim2_counterexample :
    api_delete_restore_point fsC2 "vm-export-a" = (.ok ⟨0, 150⟩, ⟨[]⟩) ∧
    (summarizeRP fsC2 "vm-export-a").size_bytes = 100 ∧
    (150 : Nat) ≠ 100 := by
  refine ⟨rfl, by decide, by decide⟩

/-- C2 amended: the pre-deletion `sizeBytes` of a successful single deletion
is the sum of the sizes of ALL files under the subtree, with no artifact
filter; it coincides with the Catalog Reader's artifact-only sum exactly
when every file under the subtree carries the `.ova` extension. -/
theorem claim2_amended (fs : FS) (name : String)
    (hv : pyStarts name RP_PREF = true)
    (he : fs.pathExists (rpSegs name) = true)
    (hd : fs.isDir (rpSegs name) = true) :
    api_delete_restore_point fs name =
      (.ok ⟨manifestLineCount fs (rpSegs name), allSizeUnder fs (rpSegs name)⟩,
        fs.removeAll (rpSegs name)) ∧
    ((∀ e ∈ fs.entries, strictUnder (rpSegs name) e.1 = true → e.2.isFileB = true →
        isOvaName (e.1.getLastD "") = true) →
      allSizeUnder fs (rpSegs name) = ovaSizeUnder fs (rpSegs name)) := by
  constructor
  · simp [api_delete_restore_point, hv, he, hd]
  · intro hall
    unfold allSizeUnder ovaSizeUnder
    have hfeq : fs.entries.filter (fun e => strictUnder (rpSegs name) e.1 && e.2.isFileB) =
        fs.entries.filter
          (fun e => strictUnder (rpSegs name) e.1 && e.2.isFileB &&
            isOvaName (e.1.getLastD "")) := by
      apply List.filter_congr
      intro e he2
      cases hsu : strictUnder (rpSegs name) e.1 with
      | false => simp [hsu]
      | true =>
        cases hfb : e.2.isFileB with
        | false => simp [hsu, hfb]
        | true =>
          have hova := hall e he2 hsu hfb
          simp only [hsu, hfb, Bool.and_self, Bool.true_and]
          simpa using hova
    rw [hfeq]

/-- C2 amended witness: a restore point whose only file is a 100-byte
artifact, where the two sums agree. -/
theorem claim2_witness :
    api_delete_restore_point fsC2w "vm-export-b" =
      (.ok ⟨manifestLineCount fsC2w (rpSegs "vm-export-b"),
            allSizeUnder fsC2w (rpSegs "vm-export-b")⟩,
        fsC2w.removeAll (rpSegs "vm-export-b")) ∧
    allSizeUnder fsC2w (rpSegs "vm-export-b") = ovaSizeUnder fsC2w (rpSegs "vm-export-b") := by
  have h := claim2_amended fsC2w "vm-export-b" (by decide) (by decide) (by decide)
  exact ⟨h.1, h.2 (by decide)⟩

/-! Claim C3: the listing's vmCount vs the Manifest Parser's entry count. -/

/-- C3 counterexample: a manifest with a header, one well-formed row and one
malformed row is listed with `vm_count` 2 (every line after the header is
counted), while the Manifest Parser produces 1 entry — also the `vm_count`
the contents endpoint returns for the same directory state. -/
theorem claim3_counterexample :
    (get_restore_points fsC3).map RPSummary.vm_count = [2] ∧
    wellFormedCount ["VM_NAME,VM_UUID,PROJECT_NAME,TASK_UUID,OVA_NAME",
                     "vm1,uuid1,proj1,task1,uuid1.ova",
                     "malformed"] = 1 ∧
    (api_restore_point_contents fsC3 "vm-export-c").map ContentsOk.vm_count = .ok 1 ∧
    (2 : Nat) ≠ 1 := by
  refine ⟨by decide, by decide, rfl, by decide⟩

/-- C3 amended: the listed `vm_count` equals the raw number of manifest
lines after the header, malformed rows included; it therefore only bounds
the Manifest Parser's well-formed-row count from above instead of matching
it. -/
theorem claim3_amended (fs : FS) (rp : RPSummary)
    (h : rp ∈ get_restore_points fs) :
    rp.vm_count = manifestLineCount fs [rp.name] ∧
    ∀ sz lines, fs.lookup ([rp.name] ++ [TASKS_CSV]) = some (.file sz lines) →
      rp.vm_count = (lines.drop 1).length ∧ wellFormedCount lines ≤ rp.vm_count := by
  unfold get_restore_points at h
  rcases List.mem_map.mp h with ⟨n, _, rfl⟩
  refine ⟨rfl, ?_⟩
  intro sz lines hl
  have hname : (summarizeRP fs n).name = n := rfl
  rw [hname] at hl
  have hcount : (summarizeRP fs n).vm_count = (lines.drop 1).length := by
    show manifestLineCount fs [n] = (lines.drop 1).length
    unfold manifestLineCount
    rw [hl]
  refine ⟨hcount, ?_⟩
  rw [hcount]
  exact List.length_filter_le _ _

/-- C3 amended witness at the mixed-manifest fixture: the listed summary's
count is the raw line count 2, an upper bound of the well-formed count 1. -/
theorem claim3_witness :
    (summarizeRP fsC3 "vm-export-c").vm_count = manifestLineCount fsC3 ["vm-export-c"] ∧
    (summarizeRP fsC3 "vm-export-c").vm_count =
      (["VM_NAME,VM_UUID,PROJECT_NAME,TASK_UUID,OVA_NAME",
        "vm1,uuid1,proj1,task1,uuid1.ova",
        "malformed"].drop 1).length := by
  have hmem : summarizeRP fsC3 "vm-export-c" ∈ get_restore_points fsC3 := by
    have : get_restore_points fsC3 = [summarizeRP fsC3 "vm-export-c"] := rfl
    rw [this]
    exact List.mem_singleton.mpr rfl
  have h := claim3_amended fsC3 (summarizeRP fsC3 "vm-export-c") hmem
  refine ⟨h.1, ?_⟩
  exact (h.2 64 _ rfl).1

/-! Claim C5: the derived sizeMb field. -/

/-- C5 counterexample: a restore point of 1321205 artifact bytes is listed
with `size_mb` 1.3 — `round(bytes/1024/1024, 1)`, one decimal place —
while two-decimal rounding of bytes/1048576 gives 1.26. -/
theorem claim5_counterexample :
    (get_restore_points fsC5).map RPSummary.size_mb = [(13 : ℚ)/10] ∧
    pyRound 2 ((ovaSizeUnder fsC5 ["vm-export-d"] : ℚ) / 1048576) = (63 : ℚ)/50 ∧
    ((13 : ℚ)/10) ≠ (63 : ℚ)/50 := by
  have hsz : ovaSizeUnder fsC5 ["vm-export-d"] = 1321205 := by decide
  refine ⟨?_, ?_, by norm_num⟩
  · have h1 : (get_restore_points fsC5).map RPSummary.size_mb =
        [pyRound 1 ((ovaSizeUnder fsC5 ["vm-export-d"] : ℚ) / 1024 / 1024)] := rfl
    rw [h1, hsz]
    norm_num [pyRound, round_eq]
  · rw [hsz]
    norm_num [pyRound, round_eq]

/-- C5 amended: every listed restore point's `size_mb` is bytes/1048576
rounded to ONE decimal place (`round(total_size / 1024 / 1024, 1)`), not
two. -/
theorem claim5_amended (fs : FS) (rp : RPSummary)
    (h : rp ∈ get_restore_points fs) :
    rp.size_mb = pyRound 1 ((rp.size_bytes : ℚ) / 1048576) := by
  unfold get_restore_points at h
  rcases List.mem_map.mp h with ⟨n, _, rfl⟩
  show pyRound 1 ((ovaSizeUnder fs [n] : ℚ) / 1024 / 1024) =
    pyRound 1 ((ovaSizeUnder fs [n] : ℚ) / 1048576)
  rw [div_div]
  norm_num

/-- C5 amended witness at the 1321205-byte fixture. -/
theorem claim5_witness :
    (summarizeRP fsC5 "vm-export-d").size_mb =
      pyRound 1 (((summarizeRP fsC5 "vm-export-d").size_bytes : ℚ) / 1048576) := by
  apply claim5_amended fsC5
  have h : get_restore_points fsC5 = [summarizeRP fsC5 "vm-export-d"] := rfl
  rw [h]
  exact List.mem_singleton.mpr rfl

/-! Claim C7: contents of an existing restore point with mixed rows. -/

theorem parse_eq_spec (fs : FS) (p : List String) : ∀ L : List String,
    L.filterMap (parseManifestLine fs p) =
      ((L.map (fun l => pySplit ',' (pyStrip l))).filter
        (fun ps => 3 ≤ ps.length)).map (specEntry fs p) := by
  intro L
  induction L with
  | nil => rfl
  | cons l rest ih =>
    by_cases h : 3 ≤ (pySplit ',' (pyStrip l)).length
    · have hp : parseManifestLine fs p l =
          some (specEntry fs p (pySplit ',' (pyStrip l))) := by
        simp [parseManifestLine, specEntry, h]
      simp [List.filterMap_cons, hp, h, ih]
    · have hp : parseManifestLine fs p l = none := by
        simp [parseManifestLine, h]
      simp [List.filterMap_cons, hp, h, ih]

/-- C7: for an existing restore point whose manifest file holds a header
and a mix of rows, the contents endpoint returns exactly the well-formed
rows (at least 3 comma-separated fields), in manifest line order, each
mapped positionally to (VM name, VM UUID, project, optional task UUID,
optional artifact name) with empty-string defaults — and `vm_count` is
their number. -/
theorem claim7_contents_wellformed_rows (fs : FS) (name : String) (sz : Nat)
    (lines : List String)
    (hv : pyStarts name RP_PREF = true)
    (he : fs.pathExists (rpSegs name) = true)
    (ht : fs.lookup (rpSegs name ++ [TASKS_CSV]) = some (.file sz lines)) :
    api_restore_point_contents fs name =
      .ok ⟨name,
        ((lines.drop 1).map (fun l => pySplit ',' (pyStrip l)) |>.filter
          (fun ps => 3 ≤ ps.length)).map (specEntry fs (rpSegs name)),
        wellFormedCount lines⟩ := by
  have hparse := parse_eq_spec fs (rpSegs name) (lines.drop 1)
  have hlen : ((((lines.drop 1).map (fun l => pySplit ',' (pyStrip l))).filter
      (fun ps => 3 ≤ ps.length)).map (specEntry fs (rpSegs name))).length =
        wellFormedCount lines := by
    rw [List.length_map, List.filter_map, List.length_map]
    unfold wellFormedCount
    exact congrArg List.length (List.filter_congr (fun a _ => rfl))
  by_cases hlt : 1 < lines.length
  · simp only [api_restore_point_contents, hv, he, ht, Bool.not_true, hlt, if_true,
      Bool.not_false, Bool.false_eq_true, if_false, hparse]
    rw [← hparse, ← hlen, hparse]
  · have hdrop : lines.drop 1 = [] := List.drop_eq_nil_of_le (by omega)
    simp [api_restore_point_contents, hv, he, ht, hlt, hdrop, wellFormedCount]

/-- C7 witness: a manifest with a header, two well-formed rows and one
malformed row returns exactly those two rows. -/
theorem claim7_witness :
    api_restore_point_contents fsC7 "vm-export-e" =
      .ok ⟨"vm-export-e",
        ((["vm1,u1,p1,t1,u1.ova", "short,x", "vm2,u2,p2"].map
            (fun l => pySplit ',' (pyStrip l))).filter
          (fun ps => 3 ≤ ps.length)).map (specEntry fsC7 (rpSegs "vm-export-e")),
        wellFormedCount ["VM_NAME,VM_UUID,PROJECT_NAME,TASK_UUID,OVA_NAME",
                         "vm1,u1,p1,t1,u1.ova", "short,x", "vm2,u2,p2"]⟩ := by
  exact claim7_contents_wellformed_rows fsC7 "vm-export-e" 90
    ["VM_NAME,VM_UUID,PROJECT_NAME,TASK_UUID,OVA_NAME",
     "vm1,u1,p1,t1,u1.ova", "short,x", "vm2,u2,p2"]
    (by decide) (by decide) (by decide)

/-! Claim C8: bulk deletion per-item results and summary arithmetic. -/

theorem bulkItem_name (fs : FS) (n : String) : itemName (bulkItem fs n).1 = n := by
  unfold bulkItem
  by_cases h1 : pyStarts n RP_PREF
  · by_cases h2 : fs.pathExists (rpSegs n)
    · cases h3 : removeTree fs (rpSegs n) <;> simp [h1, h2, h3, itemName]
    · simp [h1, h2, itemName]
  · simp [h1, itemName]

theorem bulkLoop_spec (names : List String) : ∀ fs : FS,
    ((bulkLoop fs names).1.map itemName = names) ∧
    (bulkLoop fs names).2.1 = (((bulkLoop fs names).1.filter itemOk).map itemSize).sum ∧
    (bulkLoop fs names).2.2.1 = (((bulkLoop fs names).1.filter itemOk).map itemVm).sum := by
  induction names with
  | nil => intro fs; simp [bulkLoop]
  | cons n ns ih =>
    intro fs
    obtain ⟨h1, h2, h3⟩ := ih (bulkItem fs n).2
    cases hok : itemOk (bulkItem fs n).1 <;>
      simp [bulkLoop, List.filter_cons, hok, h1, h2, h3, bulkItem_name]

/-- C8: the bulk endpoint produces exactly one per-item result per input
name, in input order (so one item's failure never prevents processing of
the rest), and the summary satisfies requested = input length,
succeeded + failed = requested, with the deleted-size and deleted-VM totals
summed over the successful items only. -/
theorem claim8_bulk_summary (fs : FS) (names : List String) :
    ∃ b : BulkOk, ∃ fs2 : FS,
      api_bulk_delete_restore_points fs (.names names) = (.ok b, fs2) ∧
      b.results.map itemName = names ∧
      b.summary.total_requested = names.length ∧
      b.summary.successful_deletes + b.summary.failed_deletes =
        b.summary.total_requested ∧
      b.summary.successful_deletes = (b.results.filter itemOk).length ∧
      b.summary.total_deleted_size_bytes =
        ((b.results.filter itemOk).map itemSize).sum ∧
      b.summary.total_deleted_vms = ((b.results.filter itemOk).map itemVm).sum := by
  obtain ⟨h1, h2, h3⟩ := bulkLoop_spec names fs
  refine ⟨_, _, rfl, h1, rfl, ?_, rfl, h2, h3⟩
  show ((bulkLoop fs names).1.filter itemOk).length +
    ((bulkLoop fs names).1.length - ((bulkLoop fs names).1.filter itemOk).length) =
      names.length
  have hlen : (bulkLoop fs names).1.length = names.length := by
    conv_rhs => rw [← h1]
    rw [List.length_map]
  rw [Nat.add_sub_cancel' (List.length_filter_le _ _), hlen]

/-! Claim C9: bulk per-item processing vs the single-deletion procedure. -/

/-- C9 counterexample: on a prefixed name whose path exists as a regular
file, the bulk loop (which never checks `os.path.isdir`) reports the
failure of the removal call itself, while the single-deletion endpoint
rejects with the invalid-target error — the per-item processing is not the
single-deletion procedure. -/
theorem claim9_counterexample :
    bulkItem fsC9 "vm-export-f" = (.err "vm-export-f" "Not a directory", fsC9) ∧
    singleAsItem fsC9 "vm-export-f" = (.err "vm-export-f" "Invalid restore point", fsC9) ∧
    bulkItem fsC9 "vm-export-f" ≠ singleAsItem fsC9 "vm-export-f" := by
  refine ⟨rfl, rfl, ?_⟩
  intro h
  have h2 : ItemResult.err "vm-export-f" "Not a directory" =
      ItemResult.err "vm-export-f" "Invalid restore point" := congrArg Prod.fst h
  simp at h2

/-- C9 amended: the bulk per-item processing agrees with the single-deletion
procedure on rejected prefixes, absent paths and existing directories, but
on a path that exists and is not a directory it skips the invalid-target
validation: the removal is attempted and its not-a-directory failure is
recorded as the per-item error — still destroying nothing — where the
single deletion answers the invalid-target error. -/
theorem claim9_amended (fs : FS) (name : String) :
    (pyStarts name RP_PREF = false → bulkItem fs name = singleAsItem fs name) ∧
    (fs.pathExists (rpSegs name) = false → bulkItem fs name = singleAsItem fs name) ∧
    (fs.isDir (rpSegs name) = true → bulkItem fs name = singleAsItem fs name) ∧
    (pyStarts name RP_PREF = true → fs.pathExists (rpSegs name) = true →
      fs.isDir (rpSegs name) = false →
      bulkItem fs name = (.err name "Not a directory", fs) ∧
      singleAsItem fs name = (.err name "Invalid restore point", fs)) := by
  refine ⟨?_, ?_, ?_, ?_⟩
  · intro h
    simp [bulkItem, singleAsItem, api_delete_restore_point, h, errMessage]
  · intro h
    by_cases h1 : pyStarts name RP_PREF
    · simp [bulkItem, singleAsItem, api_delete_restore_point, h, h1, errMessage]
    · simp [bulkItem, singleAsItem, api_delete_restore_point, h1, errMessage]
  · intro h
    have hpe : fs.pathExists (rpSegs name) = true := isDir_pathExists h
    by_cases h1 : pyStarts name RP_PREF
    · simp [bulkItem, singleAsItem, api_delete_restore_point, removeTree, h, h1, hpe]
    · simp [bulkItem, singleAsItem, api_delete_restore_point, h1, errMessage]
  · intro h1 h2 h3
    constructor
    · simp [bulkItem, removeTree, h1, h2, h3]
    · simp [singleAsItem, api_delete_restore_point, h1, h2, h3, errMessage]

/-- C9 amended witness at the file-not-directory fixture. -/
theorem claim9_witness :
    bulkItem fsC9 "vm-export-f" = (.err "vm-export-f" "Not a directory", fsC9) ∧
    singleAsItem fsC9 "vm-export-f" =
      (.err "vm-export-f" "Invalid restore point", fsC9) := by
  exact (claim9_amended fsC9 "vm-export-f").2.2.2 (by decide) (by decide) (by decide)
